import Mathlib

/-!
Shallow embedding of the OTP lifecycle endpoints of `src/main.py`
(SkinPilot backend): `/send-otp` (`send_otp`) and `/verify-otp`
(`verify_otp`), together with the in-memory store `otp_store` and the
code generator expression `f"{random.randint(0,999999):06d}"`.

Modelling choices:
- Time (`time.time()`) is passed explicitly as a `Nat` parameter `now`;
  only order comparisons on it matter to the code.
- The random draw `random.randint(0,999999)` is passed as a `Nat`
  parameter `n`; where the range matters a hypothesis `n ≤ 999999` is
  carried.
- The Python dict `otp_store` is an association list with dict-like
  `get` / assignment / `del` operations.
- The Twilio delivery call is an external effect: its configuration
  (all three env vars present) is a `Bool` parameter and its outcome is
  an `Option String` (`some e` = the request raised an exception whose
  `str` is `e`, `none` = success).
-/

/-- Character for the decimal digit `d` (`'0'` for 0, ..., `'9'` for 9). -/
def digitChar (d : Nat) : Char := Char.ofNat (48 + d)

/-- Little-endian decimal digit characters of `n`, driven by fuel
(empty once `n = 0`). -/
def toDecimalAux : Nat → Nat → List Char
  | 0, _ => []
  | fuel + 1, n =>
    if n = 0 then [] else digitChar (n % 10) :: toDecimalAux fuel (n / 10)

/-- Decimal digit characters of `n`, most significant first — the digits of
Python's `str(n)` / `format(n, 'd')`. -/
def toDecimal (n : Nat) : List Char :=
  if n = 0 then ['0'] else (toDecimalAux n n).reverse

/-- Python's `f"{n:06d}"`: decimal rendering of `n`, left-padded with `'0'`
to a minimum width of 6. -/
def pad6 (n : Nat) : String :=
  ⟨List.replicate (6 - (toDecimal n).length) '0' ++ toDecimal n⟩

/-- A stored challenge: the tuple `(code, expiry_ts)` kept in `otp_store`. -/
abbrev Challenge := String × Nat

/-- The in-memory OTP store `otp_store = { phone: (code, expiry_ts) }`,
modelled as an association list. -/
abbrev OtpStore := List (String × Challenge)

/-- `otp_store.get(phone)`. -/
def storeGet (s : OtpStore) (phone : String) : Option Challenge :=
  s.lookup phone

/-- `del otp_store[phone]` (removal of the key). -/
def storeErase (s : OtpStore) (phone : String) : OtpStore :=
  s.filter (fun p => p.1 != phone)

/-- `otp_store[phone] = c` (insert-or-overwrite of the key). -/
def storeSet (s : OtpStore) (phone : String) (c : Challenge) : OtpStore :=
  (phone, c) :: storeErase s phone

/-- Responses of the `/send-otp` endpoint. -/
inductive SendResult where
  /-- `HTTPException(400, 'phone required')`. -/
  | badRequest (detail : String)
  /-- `HTTPException(500, f'Twilio send error: {e}')`. -/
  | serverError (detail : String)
  /-- `{'sent': True}` (Twilio configured, delivery succeeded). -/
  | sent
  /-- `{'sent': True, 'code': code}` (no Twilio configured). -/
  | sentWithCode (code : String)
deriving DecidableEq, Repr

/-- Responses of the `/verify-otp` endpoint. -/
inductive VerifyResult where
  /-- `HTTPException(400, 'no otp for phone')`. -/
  | noChallenge
  /-- `HTTPException(400, 'otp expired')`. -/
  | expired
  /-- `HTTPException(400, 'invalid code')`. -/
  | mismatch
  /-- `{'verified': True}`. -/
  | verified
deriving DecidableEq, Repr

/-- The `/send-otp` handler `send_otp` of `src/main.py`, returning the
response together with the store after the call.

`store`: `otp_store` before the call; `phone`: `req.phone`;
`n`: the value of `random.randint(0,999999)`; `now`: `time.time()`;
`twilioConfigured`: whether all three `TWILIO_*` env vars are set;
`deliveryOutcome`: `some e` iff the Twilio HTTP call raised an exception
with message `e`. -/
def send_otp (store : OtpStore) (phone : String) (n now : Nat)
    (twilioConfigured : Bool) (deliveryOutcome : Option String) :
    SendResult × OtpStore :=
  if phone = "" then
    (.badRequest "phone required", store)
  else
    let code := pad6 n
    let expiry := now + 5 * 60
    let stored := storeSet store phone (code, expiry)
    if twilioConfigured then
      match deliveryOutcome with
      | some e => (.serverError ("Twilio send error: " ++ e), stored)
      | none => (.sent, stored)
    else
      (.sentWithCode code, stored)

/-- The `/verify-otp` handler `verify_otp` of `src/main.py`, returning the
response together with the store after the call.

`store`: `otp_store` before the call; `phone`, `code`: the request body;
`now`: `time.time()` at the expiry check. -/
def verify_otp (store : OtpStore) (phone code : String) (now : Nat) :
    VerifyResult × OtpStore :=
  match storeGet store phone with
  | none => (.noChallenge, store)
  | some (savedCode, expiry) =>
    if now > expiry then
      (.expired, storeErase store phone)
    else if code ≠ savedCode then
      (.mismatch, store)
    else
      (.verified, storeErase store phone)

/-- All keys of the store are non-empty identities. -/
def keysNonEmpty (s : OtpStore) : Bool :=
  s.all (fun p => p.1 != "")

/-! Helper lemmas about the generator and the store. -/

theorem digitChar_isDigit (d : Nat) (h : d < 10) : (digitChar d).isDigit = true := by
  interval_cases d <;> decide

theorem toDecimalAux_digits (fuel : Nat) :
    ∀ n, ∀ c ∈ toDecimalAux fuel n, c.isDigit = true := by
  induction fuel with
  | zero => intro n c hc; simp [toDecimalAux] at hc
  | succ fuel ih =>
    intro n c hc
    by_cases hn : n = 0
    · simp [toDecimalAux, hn] at hc
    · simp only [toDecimalAux, if_neg hn, List.mem_cons] at hc
      rcases hc with h | h
      · subst h; exact digitChar_isDigit _ (Nat.mod_lt _ (by norm_num))
      · exact ih _ _ h

theorem toDecimalAux_length (fuel : Nat) :
    ∀ k n, n < 10 ^ k → (toDecimalAux fuel n).length ≤ k := by
  induction fuel with
  | zero => intro k n _; simp [toDecimalAux]
  | succ fuel ih =>
    intro k n hn
    by_cases h0 : n = 0
    · simp [toDecimalAux, h0]
    · cases k with
      | zero => simp at hn; omega
      | succ j =>
        simp only [toDecimalAux, if_neg h0, List.length_cons]
        have hdiv : n / 10 < 10 ^ j := by
          rw [Nat.div_lt_iff_lt_mul (by norm_num)]
          calc n < 10 ^ (j + 1) := hn
          _ = 10 ^ j * 10 := by ring
        have := ih j (n / 10) hdiv
        omega

theorem toDecimal_length_le (n : Nat) (h : n ≤ 999999) :
    (toDecimal n).length ≤ 6 := by
  by_cases h0 : n = 0
  · simp [toDecimal, h0]
  · simp only [toDecimal, if_neg h0, List.length_reverse]
    exact toDecimalAux_length n 6 n (by omega)

theorem toDecimal_digits (n : Nat) : ∀ c ∈ toDecimal n, c.isDigit = true := by
  by_cases h0 : n = 0
  · intro c hc
    simp [toDecimal, h0] at hc
    subst hc; decide
  · simp only [toDecimal, if_neg h0, List.mem_reverse]
    exact toDecimalAux_digits n n

theorem storeGet_storeSet_self (s : OtpStore) (k : String) (c : Challenge) :
    storeGet (storeSet s k c) k = some c := by
  simp [storeGet, storeSet, List.lookup]

theorem storeGet_storeErase_self (s : OtpStore) (k : String) :
    storeGet (storeErase s k) k = none := by
  induction s with
  | nil => rfl
  | cons p t ih =>
    by_cases h : p.1 = k
    · have h1 : (p.1 != k) = false := by simp [h]
      simp only [storeErase, List.filter_cons, h1, Bool.false_eq_true, if_false]
      exact ih
    · have h1 : (p.1 != k) = true := by simp [h]
      have hk : (k == p.1) = false := beq_eq_false_iff_ne.mpr (Ne.symm h)
      simp only [storeErase, List.filter_cons, h1, if_true, storeGet,
        List.lookup, hk]
      exact ih

theorem filter_key_storeErase (s : OtpStore) (k : String) :
    (storeErase s k).filter (fun p => p.1 == k) = [] := by
  rw [List.filter_eq_nil_iff]
  intro p hp
  have := (List.mem_filter.1 hp).2
  simp only [bne_iff_ne, ne_eq, decide_eq_true_eq] at this
  simp [this]

theorem send_otp_snd (store : OtpStore) (phone : String) (n now : Nat)
    (tw : Bool) (d : Option String) (h : phone ≠ "") :
    (send_otp store phone n now tw d).2
      = storeSet store phone (pad6 n, now + 5 * 60) := by
  cases tw <;> cases d <;> simp [send_otp, h]

theorem verify_otp_get_none (s : OtpStore) (phone code : String) (t : Nat)
    (h : storeGet s phone = none) :
    verify_otp s phone code t = (.noChallenge, s) := by
  simp [verify_otp, h]

theorem verify_otp_snd_eq (s : OtpStore) (p c : String) (t : Nat) :
    (verify_otp s p c t).2 = s ∨ (verify_otp s p c t).2 = storeErase s p := by
  unfold verify_otp
  rcases hg : storeGet s p with _ | ⟨sc, ex⟩
  · exact Or.inl rfl
  · by_cases h1 : t > ex
    · right; simp [h1]
    · by_cases h2 : c ≠ sc
      · left; simp [h1, h2]
      · right; simp [h1, h2]

theorem keysNonEmpty_storeErase (s : OtpStore) (k : String)
    (h : keysNonEmpty s = true) : keysNonEmpty (storeErase s k) = true := by
  rw [keysNonEmpty, List.all_eq_true] at *
  intro p hp
  exact h p (List.mem_filter.1 hp).1

example : pad6 7 = "000007" := by decide
example : pad6 42017 = "042017" := by rfl
example : pad6 0 = "000000" := by decide
example : pad6 999999 = "999999" := by rfl
example :
    (send_otp [] "+15550001" 7 100 false none)
      = (.sentWithCode "000007", [("+15550001", ("000007", 400))]) := by decide
example :
    (verify_otp [("+15550001", ("000007", 400))] "+15550001" "000007" 110)
      = (.verified, []) := by decide

/-! Claim theorems. -/

/-- C1: after an Issue stores a challenge for an identity, a Verify with the
stored code at or before the expiry instant returns `verified`, removes the
entry for that identity, and a second Verify for the same identity with the
same code immediately afterward fails with `noChallenge`. -/
theorem issue_then_verify_consumes (store : OtpStore) (phone : String)
    (n now t t2 : Nat) (tw : Bool) (d : Option String)
    (hphone : phone ≠ "") (ht : t ≤ now + 5 * 60) :
    (verify_otp (send_otp store phone n now tw d).2 phone (pad6 n) t).1
      = .verified ∧
    storeGet (verify_otp (send_otp store phone n now tw d).2 phone (pad6 n) t).2
      phone = none ∧
    (verify_otp
      (verify_otp (send_otp store phone n now tw d).2 phone (pad6 n) t).2
      phone (pad6 n) t2).1 = .noChallenge := by
  rw [send_otp_snd store phone n now tw d hphone]
  have hnot : ¬ (t > now + 5 * 60) := by omega
  have hv : verify_otp (storeSet store phone (pad6 n, now + 5 * 60)) phone
      (pad6 n) t
      = (.verified, storeErase (storeSet store phone (pad6 n, now + 5 * 60))
          phone) := by
    simp [verify_otp, storeGet_storeSet_self, hnot]
  rw [hv]
  refine ⟨rfl, storeGet_storeErase_self _ _, ?_⟩
  rw [verify_otp_get_none _ _ _ _ (storeGet_storeErase_self _ _)]

/-- C1 witness at a concrete input. -/
theorem issue_then_verify_consumes_witness :
    ("+15550001" ≠ "" ∧ 10 ≤ 0 + 5 * 60) ∧
    ((verify_otp (send_otp [] "+15550001" 7 0 false none).2 "+15550001"
        (pad6 7) 10).1 = .verified ∧
     storeGet (verify_otp (send_otp [] "+15550001" 7 0 false none).2
        "+15550001" (pad6 7) 10).2 "+15550001" = none ∧
     (verify_otp
        (verify_otp (send_otp [] "+15550001" 7 0 false none).2 "+15550001"
          (pad6 7) 10).2
        "+15550001" (pad6 7) 11).1 = .noChallenge) :=
  ⟨⟨by decide, by decide⟩,
    issue_then_verify_consumes [] "+15550001" 7 0 10 11 false none
      (by decide) (by decide)⟩

/-- C2: a Verify with a wrong code against a pending unexpired challenge
fails with `mismatch` and leaves the store unchanged, so a later Verify with
the correct code before expiry still succeeds. -/
theorem mismatch_preserves_challenge (store : OtpStore)
    (phone wrong saved : String) (expiry t t2 : Nat)
    (hget : storeGet store phone = some (saved, expiry))
    (hw : wrong ≠ saved) (ht : t ≤ expiry) (ht2 : t2 ≤ expiry) :
    verify_otp store phone wrong t = (.mismatch, store) ∧
    (verify_otp store phone saved t2).1 = .verified := by
  have hnot : ¬ (t > expiry) := by omega
  have hnot2 : ¬ (t2 > expiry) := by omega
  constructor
  · simp [verify_otp, hget, hnot, hw]
  · simp [verify_otp, hget, hnot2]

/-- C2 witness at a concrete input. -/
theorem mismatch_preserves_challenge_witness :
    (storeGet [("+15550001", ("000007", 300))] "+15550001"
        = some ("000007", 300) ∧
      "111111" ≠ "000007" ∧ 10 ≤ 300 ∧ 20 ≤ 300) ∧
    (verify_otp [("+15550001", ("000007", 300))] "+15550001" "111111" 10
        = (.mismatch, [("+15550001", ("000007", 300))]) ∧
     (verify_otp [("+15550001", ("000007", 300))] "+15550001" "000007" 20).1
        = .verified) :=
  ⟨⟨by decide, by decide, by decide, by decide⟩,
    mismatch_preserves_challenge [("+15550001", ("000007", 300))]
      "+15550001" "111111" "000007" 300 10 20 (by decide) (by decide)
      (by decide) (by decide)⟩

/-- C3: a Verify strictly after the stored expiry fails with `expired` and
removes the entry, whatever the submitted code; any later Verify for that
identity, with any code, fails with `noChallenge`. -/
theorem expired_verify_reaps (store : OtpStore)
    (phone code code2 saved : String) (expiry t t2 : Nat)
    (hget : storeGet store phone = some (saved, expiry))
    (ht : expiry < t) :
    verify_otp store phone code t = (.expired, storeErase store phone) ∧
    (verify_otp (storeErase store phone) phone code2 t2).1 = .noChallenge := by
  constructor
  · simp [verify_otp, hget, ht]
  · rw [verify_otp_get_none _ _ _ _ (storeGet_storeErase_self _ _)]

/-- C3 witness at a concrete input. -/
theorem expired_verify_reaps_witness :
    (storeGet [("+15550002", ("000007", 300))] "+15550002"
        = some ("000007", 300) ∧ 300 < 301) ∧
    (verify_otp [("+15550002", ("000007", 300))] "+15550002" "000000" 301
        = (.expired, storeErase [("+15550002", ("000007", 300))] "+15550002") ∧
     (verify_otp (storeErase [("+15550002", ("000007", 300))] "+15550002")
        "+15550002" "000007" 302).1 = .noChallenge) :=
  ⟨⟨by decide, by decide⟩,
    expired_verify_reaps [("+15550002", ("000007", 300))] "+15550002"
      "000000" "000007" "000007" 300 301 302 (by decide) (by decide)⟩

/-- C4: when Twilio is configured and the delivery attempt fails, the 500
response detail embeds the raw exception text verbatim after the prefix
"Twilio send error: ", so the client-visible message is not
provider-agnostic; at this concrete input it reproduces a provider error
line carrying the provider URL (which includes the account SID). This
refutes the claimed provider-agnostic message and exhibits the code bug. -/
theorem delivery_failure_leaks_provider_error :
    (send_otp [] "+15550001" 7 0 true
        (some "401 Unauthorized for url https://api.twilio.com/2010-04-01/Accounts/AC0123456789/Messages.json")).1
      = SendResult.serverError
          ("Twilio send error: " ++
            "401 Unauthorized for url https://api.twilio.com/2010-04-01/Accounts/AC0123456789/Messages.json") := by
  rfl

/-- C5 counterexample: when the two random draws coincide (both 7 here),
the code stored by the first Issue still verifies after the second Issue,
refuting the claim that Verify with the first code always fails with
`mismatch` after a second Issue. -/
theorem second_issue_same_code_counterexample :
    (verify_otp
        (send_otp (send_otp [] "+15550001" 7 0 false none).2 "+15550001" 7 0
          false none).2
        "+15550001" (pad6 7) 10).1 = VerifyResult.verified ∧
    VerifyResult.verified ≠ VerifyResult.mismatch := by
  exact ⟨by decide, by decide⟩

/-- C5 (amended): provided the two generated codes differ, after two
sequential Issue calls for the same identity, Verify with the first code
before the second expiry fails with `mismatch`, Verify with the second code
succeeds, and exactly one entry for that identity is in the store. -/
theorem second_issue_overwrites (store : OtpStore) (phone : String)
    (n1 n2 now1 now2 t : Nat) (tw1 tw2 : Bool) (d1 d2 : Option String)
    (hphone : phone ≠ "") (hcode : pad6 n1 ≠ pad6 n2)
    (ht : t ≤ now2 + 5 * 60) :
    (verify_otp (send_otp (send_otp store phone n1 now1 tw1 d1).2 phone n2
        now2 tw2 d2).2 phone (pad6 n1) t).1 = .mismatch ∧
    (verify_otp (send_otp (send_otp store phone n1 now1 tw1 d1).2 phone n2
        now2 tw2 d2).2 phone (pad6 n2) t).1 = .verified ∧
    ((send_otp (send_otp store phone n1 now1 tw1 d1).2 phone n2 now2 tw2
        d2).2.filter (fun p => p.1 == phone)).length = 1 := by
  rw [send_otp_snd _ phone n2 now2 tw2 d2 hphone]
  have hnot : ¬ (t > now2 + 5 * 60) := by omega
  refine ⟨?_, ?_, ?_⟩
  · simp [verify_otp, storeGet_storeSet_self, hnot, hcode]
  · simp [verify_otp, storeGet_storeSet_self, hnot]
  · simp [storeSet, List.filter_cons, filter_key_storeErase]

/-- C5 witness at a concrete input. -/
theorem second_issue_overwrites_witness :
    ("+15550001" ≠ "" ∧ pad6 7 ≠ pad6 8 ∧ 10 ≤ 0 + 5 * 60) ∧
    ((verify_otp (send_otp (send_otp [] "+15550001" 7 0 false none).2
        "+15550001" 8 0 false none).2 "+15550001" (pad6 7) 10).1
          = .mismatch ∧
     (verify_otp (send_otp (send_otp [] "+15550001" 7 0 false none).2
        "+15550001" 8 0 false none).2 "+15550001" (pad6 8) 10).1
          = .verified ∧
     ((send_otp (send_otp [] "+15550001" 7 0 false none).2 "+15550001" 8 0
        false none).2.filter (fun p => p.1 == "+15550001")).length = 1) :=
  ⟨⟨by decide, by decide, by decide⟩,
    second_issue_overwrites [] "+15550001" 7 8 0 0 10 false false none none
      (by decide) (by decide) (by decide)⟩

/-- C6: Verify for an identity with no entry in the store fails with
`noChallenge` and leaves the store unchanged. -/
theorem verify_without_challenge (store : OtpStore) (phone code : String)
    (t : Nat) (h : storeGet store phone = none) :
    verify_otp store phone code t = (.noChallenge, store) :=
  verify_otp_get_none store phone code t h

/-- C6 witness at a concrete input. -/
theorem verify_without_challenge_witness :
    storeGet [] "+15550001" = none ∧
    verify_otp [] "+15550001" "000007" 10 = (.noChallenge, []) :=
  ⟨by decide, verify_without_challenge [] "+15550001" "000007" 10 (by decide)⟩

/-- C7: for every draw n in [0, 999999], the generated code is a 6-character
string all of whose characters are decimal digits. -/
theorem generated_code_six_digits (n : Nat) (h : n ≤ 999999) :
    (pad6 n).length = 6 ∧ (pad6 n).data.all Char.isDigit = true := by
  constructor
  · have hL := toDecimal_length_le n h
    simp only [pad6, String.length]
    rw [List.length_append, List.length_replicate]
    omega
  · rw [List.all_eq_true]
    intro c hc
    simp only [pad6, List.mem_append, List.mem_replicate] at hc
    rcases hc with h1 | h1
    · rw [h1.2]; decide
    · exact toDecimal_digits n c h1

/-- C7 witness at a concrete input. -/
theorem generated_code_six_digits_witness :
    7 ≤ 999999 ∧
    ((pad6 7).length = 6 ∧ (pad6 7).data.all Char.isDigit = true) :=
  ⟨by decide, generated_code_six_digits 7 (by decide)⟩

/-- C8: a successful Issue at time `now` stores the generated code with
expiry exactly `now + 300` seconds (fixed five-minute TTL). -/
theorem issue_sets_ttl_300 (store : OtpStore) (phone : String) (n now : Nat)
    (tw : Bool) (d : Option String) (hphone : phone ≠ "") :
    storeGet (send_otp store phone n now tw d).2 phone
      = some (pad6 n, now + 300) := by
  rw [send_otp_snd store phone n now tw d hphone]
  simpa using storeGet_storeSet_self store phone (pad6 n, now + 5 * 60)

/-- C8 witness at a concrete input. -/
theorem issue_sets_ttl_300_witness :
    "+15550001" ≠ "" ∧
    storeGet (send_otp [] "+15550001" 7 0 false none).2 "+15550001"
      = some (pad6 7, 0 + 300) :=
  ⟨by decide, issue_sets_ttl_300 [] "+15550001" 7 0 false none (by decide)⟩

/-- C9: Issue with the empty identity fails with the 400 client error
`phone required` and returns the store unchanged, for every configuration
and delivery outcome — nothing is generated, stored or delivered. -/
theorem empty_identity_rejected (store : OtpStore) (n now : Nat) (tw : Bool)
    (d : Option String) :
    send_otp store "" n now tw d = (.badRequest "phone required", store) := by
  rfl

/-- C10: from the empty store, and for stores all of whose keys are
non-empty, both endpoints preserve the invariant that every key of the
store is a non-empty identity. -/
theorem store_keys_nonempty_invariant (store : OtpStore)
    (phone code : String) (n now t : Nat) (tw : Bool) (d : Option String)
    (h : keysNonEmpty store = true) :
    keysNonEmpty ([] : OtpStore) = true ∧
    keysNonEmpty (send_otp store phone n now tw d).2 = true ∧
    keysNonEmpty (verify_otp store phone code t).2 = true := by
  refine ⟨rfl, ?_, ?_⟩
  · by_cases hp : phone = ""
    · subst hp
      have hsame : (send_otp store "" n now tw d).2 = store := rfl
      rw [hsame]; exact h
    · rw [send_otp_snd store phone n now tw d hp]
      simp only [keysNonEmpty, storeSet, List.all_cons, Bool.and_eq_true]
      refine ⟨by simp [hp], ?_⟩
      have := keysNonEmpty_storeErase store phone h
      simpa [keysNonEmpty] using this
  · rcases verify_otp_snd_eq store phone code t with h1 | h1
    · rw [h1]; exact h
    · rw [h1]; exact keysNonEmpty_storeErase store phone h

/-- C10 witness at a concrete input. -/
theorem store_keys_nonempty_invariant_witness :
    keysNonEmpty [("+15551234", ("424242", 300))] = true ∧
    (keysNonEmpty ([] : OtpStore) = true ∧
     keysNonEmpty (send_otp [("+15551234", ("424242", 300))] "+15550001" 7 0
        false none).2 = true ∧
     keysNonEmpty (verify_otp [("+15551234", ("424242", 300))] "+15551234"
        "424242" 10).2 = true) :=
  ⟨by decide,
    store_keys_nonempty_invariant [("+15551234", ("424242", 300))]
      "+15550001" "424242" 7 0 10 false none (by decide)⟩
